import Mathlib

/-!
Verification development for the Eduskunta data downloader
(`src/main.py`).  The definitions below are shallow embeddings of the
concurrent paginated ingestion engine: the token-bucket `RateLimiter`,
the retrying page fetcher `fetch_page_with_retry`, the pagination
generator `eduskunta_table` (its metadata / page-0 phase and its
buffer-then-emit concurrent phase), and the row-count verification
performed by `main`.  Machine floats of the Python source are modelled
with exact rationals; wall-clock time is an explicit clock value
threaded through the state.
-/

/-- Exceptions the embedded Python code can raise.  `fetchError` is the
wrapper the specification describes (page index plus underlying error);
it exists as a value so that we can state whether the code ever
produces it. -/
inductive PyExc where
  | typeError
  | zeroDivisionError
  | valueError
  | transportError (msg : String)
  | httpStatusError (code : Nat)
  | fetchError (page : Nat) (inner : PyExc)
deriving DecidableEq, Repr

/-! Rate limiter (src/main.py lines 65-90) -/

/-- State of the token-bucket rate limiter: `rate_limit` is both the
capacity and the refill rate (tokens per second), `tokens` the current
token count, `last_update` the timestamp of the last refill.  Floats of
the source are modelled as rationals. -/
structure RateLimiter where
  rate_limit : ℚ
  tokens : ℚ
  last_update : ℚ
deriving DecidableEq, Repr

/-- Constructor `RateLimiter.__init__`: tokens start at `rate_limit`,
`last_update` at the construction time (taken as clock 0).  The source
performs no validation of `rate_limit`. -/
def RateLimiter.init (rate_limit : ℚ) : RateLimiter :=
  ⟨rate_limit, rate_limit, 0⟩

/-- Python's two-argument `min`, written out so that it evaluates by
kernel reduction. -/
def pymin (x y : ℚ) : ℚ :=
  if x ≤ y then x else y

/-- The refill computation at the top of `acquire`:
`min(rate_limit, tokens + time_passed * rate_limit)`. -/
def RateLimiter.refillTokens (s : RateLimiter) (now : ℚ) : ℚ :=
  pymin s.rate_limit (s.tokens + (now - s.last_update) * s.rate_limit)

/-- `RateLimiter.acquire`, idealized semantics for a positive rate:
called at clock `now`, returns the updated state and the clock at which
the call returns (after any sleep).  In the wait branch the source
sleeps `(1.0 - tokens) / rate_limit`, then sets tokens to 0 and
`last_update` to the post-sleep time; otherwise it consumes one token
immediately. -/
def RateLimiter.acquire (s : RateLimiter) (now : ℚ) : RateLimiter × ℚ :=
  let tokens1 := s.refillTokens now
  if tokens1 < 1 then
    let sleep_time := (1 - tokens1) / s.rate_limit
    (⟨s.rate_limit, 0, now + sleep_time⟩, now + sleep_time)
  else
    (⟨s.rate_limit, tokens1 - 1, now⟩, now)

/-- `acquire` with Python's error semantics made explicit:
`(1.0 - tokens) / rate_limit` raises `ZeroDivisionError` when
`rate_limit` is zero, and `time.sleep` raises `ValueError` on a
negative argument (which `sleep_time` is for a negative rate). -/
def RateLimiter.acquireChecked (s : RateLimiter) (now : ℚ) :
    Except PyExc (RateLimiter × ℚ) :=
  let tokens1 := s.refillTokens now
  if tokens1 < 1 then
    if s.rate_limit = 0 then .error .zeroDivisionError
    else
      let sleep_time := (1 - tokens1) / s.rate_limit
      if sleep_time < 0 then .error .valueError
      else .ok (⟨s.rate_limit, 0, now + sleep_time⟩, now + sleep_time)
  else
    .ok (⟨s.rate_limit, tokens1 - 1, now⟩, now)

/-- `n` back-to-back `acquire` calls: each call is issued at the exact
clock instant the previous one returned.  Returns the final state and
the clock at which the last call returned. -/
def RateLimiter.acquireN (s : RateLimiter) (now : ℚ) : ℕ → RateLimiter × ℚ
  | 0 => (s, now)
  | Nat.succ n =>
    let r := s.acquire now
    RateLimiter.acquireN r.1 r.2 n

/-- Total wall-clock time for `N` back-to-back `acquire` calls on a
fresh limiter with rate `R`, starting at clock 0. -/
def elapsedAfter (R : ℚ) (N : ℕ) : ℚ :=
  ((RateLimiter.init R).acquireN 0 N).2

/-- Events of one `acquire` call, used to examine what happens while
the mutual-exclusion lock is held. -/
inductive RLEvent where
  | lockAcquire
  | sleepFor (t : ℚ)
  | lockRelease
deriving DecidableEq, Repr

/-- Event trace of one `acquire` call.  In the source the whole body,
including the `time.sleep`, is inside the `with self.lock:` block, so
the sleep event sits between the lock acquisition and its release. -/
def RateLimiter.acquireTrace (s : RateLimiter) (now : ℚ) :
    List RLEvent × RateLimiter × ℚ :=
  let tokens1 := s.refillTokens now
  if tokens1 < 1 then
    let sleep_time := (1 - tokens1) / s.rate_limit
    ([.lockAcquire, .sleepFor sleep_time, .lockRelease],
      ⟨s.rate_limit, 0, now + sleep_time⟩, now + sleep_time)
  else
    ([.lockAcquire, .lockRelease], ⟨s.rate_limit, tokens1 - 1, now⟩, now)

/-- Whether a trace contains a sleep event while the lock depth is
positive. -/
def sleepsHoldingLock : List RLEvent → ℕ → Bool
  | [], _ => false
  | .lockAcquire :: rest, d => sleepsHoldingLock rest (d + 1)
  | .lockRelease :: rest, d => sleepsHoldingLock rest (d - 1)
  | .sleepFor _ :: rest, d => (d != 0) || sleepsHoldingLock rest d

/-! Page fetcher (src/main.py lines 153-175) -/

/-- One HTTP request issued by `fetch_page_with_retry`: the query
parameters `page` and `perPage`, and the per-attempt `timeout` passed
to `requests.get` (15 in the source). -/
structure FetchCall where
  page : ℕ
  perPage : ℕ
  timeout : ℕ
deriving DecidableEq, Repr

/-- Result of `fetch_page_with_retry`: a successful `(page, data)`
pair, a raised exception, or Python's implicit `None` return when the
retry loop runs zero iterations (`retries = 0`). -/
inductive FetchOutcome (α : Type) where
  | returned (page : ℕ) (data : α)
  | raised (e : PyExc)
  | fellThrough
deriving DecidableEq, Repr

/-- Observable behaviour of one `fetch_page_with_retry` call: the
transport requests issued, the backoff sleeps performed between
attempts, and the outcome. -/
structure FetchTrace (α : Type) where
  calls : List FetchCall
  sleeps : List ℚ
  outcome : FetchOutcome α
deriving DecidableEq, Repr

/-- Exponential backoff delay of the source: `0.5 * (2 ** attempt)`. -/
def retry_delay (attempt : ℕ) : ℚ :=
  (1 / 2) * 2 ^ attempt

/-- The retry loop `for attempt in range(retries)`, run over the list
of remaining attempt indices.  On success the call returns
`(page, data)`; on an exception at the last attempt
(`attempt == retries - 1`) the exception is re-raised as is; otherwise
the loop sleeps `retry_delay attempt` and continues. -/
def fetchAttempts {α : Type} (transport : ℕ → Except PyExc α)
    (page per_page retries : ℕ) : List ℕ → FetchTrace α
  | [] => ⟨[], [], .fellThrough⟩
  | attempt :: rest =>
    match transport attempt with
    | .ok data => ⟨[⟨page, per_page, 15⟩], [], .returned page data⟩
    | .error e =>
      if attempt = retries - 1 then ⟨[⟨page, per_page, 15⟩], [], .raised e⟩
      else
        let t := fetchAttempts transport page per_page retries rest
        ⟨⟨page, per_page, 15⟩ :: t.calls,
          retry_delay attempt :: t.sleeps, t.outcome⟩

/-- `fetch_page_with_retry(table_name, page, per_page, retries)`; the
transport abstracts `requests.get` plus JSON decoding, indexed by the
attempt number. -/
def fetch_page_with_retry {α : Type} (transport : ℕ → Except PyExc α)
    (page per_page retries : ℕ) : FetchTrace α :=
  fetchAttempts transport page per_page retries (List.range retries)

/-- Whether a fetch ended by raising the page-identifying `FetchError`
wrapper described by the specification. -/
def carriesFetchError {α : Type} (t : FetchTrace α) : Bool :=
  match t.outcome with
  | .raised (.fetchError _ _) => true
  | _ => false

/-- A transport that fails on every attempt with the same error, used
as a concrete always-failing instance. -/
def alwaysBoom : ℕ → Except PyExc Unit :=
  fun _ => .error (.transportError "boom")

/-! Pagination generator `eduskunta_table` (src/main.py lines 180-382) -/

/-- The protocol-level page size constant `PER_PAGE`. -/
def PER_PAGE : ℕ := 100

/-- Decoded JSON payload of a page-0 request.  Each field is optional
because the source reads the JSON dict with `.get` defaults
(`columnNames` and `rowData` default to `[]`, `hasMore` to `False`)
or membership tests (`"rowCount" in data`). -/
structure Page0Payload (α : Type) where
  columnNames : Option (List String)
  rowData : Option (List (List α))
  rowCount : Option Int
  hasMore : Option Bool
deriving DecidableEq, Repr

/-- Python dict lookup for the flattened `/tables/counts` response:
`{item["tableName"]: item["rowCount"]}.get(name, None)`; a later pair
with the same key overrides an earlier one. -/
def lookupTable (row_counts : List (String × Int)) (table_name : String) :
    Option Int :=
  row_counts.foldl
    (fun acc kv => if kv.1 = table_name then some kv.2 else acc) none

/-- The page-count formula `(row_count + PER_PAGE - 1) // PER_PAGE`,
applied by the source only under a `row_count > 0` guard, where Python
floor division agrees with natural division on `row_count.toNat`. -/
def totalPagesOfCount (row_count : Int) : ℕ :=
  (row_count.toNat + PER_PAGE - 1) / PER_PAGE

/-- The `total_pages` computed from the bulk row-counts request
(lines 193-203): `none` models both a failed request and a dataset
absent from the mapping (and a non-positive reported count). -/
def totalPagesFromRowCounts (rowCountsResp : Option (List (String × Int)))
    (table_name : String) : Option ℕ :=
  match rowCountsResp with
  | none => none
  | some row_counts =>
    match lookupTable row_counts table_name with
    | some row_count =>
      if 0 < row_count then some (totalPagesOfCount row_count) else none
    | none => none

/-- `total_pages` after the page-0 fallback of lines 223-225: when the
bulk value is `None` and page 0 carries a positive `rowCount`, it is
recomputed from that count; otherwise it stays as it was. -/
def effectiveTotalPages {α : Type} (rowCountsResp : Option (List (String × Int)))
    (table_name : String) (page0 : Page0Payload α) : Option ℕ :=
  match totalPagesFromRowCounts rowCountsResp table_name with
  | some tp => some tp
  | none =>
    match page0.rowCount with
    | some rc => if 0 < rc then some (totalPagesOfCount rc) else none
    | none => none

/-- How the metadata-and-page-0 phase of the generator can end: a
successful return after page 0 (lines 249-259), an exception raised
after page 0's records were yielded, or entry into the concurrent phase
with the fetch tasks `range(1, total_pages)` submitted to the pool
(lines 270-275). -/
inductive Phase1Result (α : Type) where
  | done (records : List (List (String × α)))
  | raised (records : List (List (String × α))) (e : PyExc)
  | parallel (records : List (List (String × α))) (total_pages : ℕ)
      (tasks : List ℕ)
deriving DecidableEq, Repr

/-- The metadata-and-page-0 phase of `eduskunta_table`: resolve
`total_pages`, yield page 0's rows zipped with its column list, then
test `if not has_more or total_pages <= 1`.  Python's `or` evaluates
its right operand only when `has_more` is true, and comparing the
`None` total page count with `1` there raises `TypeError`.
`max_concurrent_requests` is the generator's concurrency parameter; it
plays no role before tasks are submitted. -/
def eduskunta_table_phase1 {α : Type}
    (rowCountsResp : Option (List (String × Int))) (table_name : String)
    (page0 : Page0Payload α) (max_concurrent_requests : ℕ) :
    Phase1Result α :=
  let _ := max_concurrent_requests
  let column_names := page0.columnNames.getD []
  let first_page_rows := page0.rowData.getD []
  let records := first_page_rows.map (fun row => column_names.zip row)
  let has_more := page0.hasMore.getD false
  let total_pages := effectiveTotalPages rowCountsResp table_name page0
  if has_more = false then .done records
  else
    match total_pages with
    | none => .raised records PyExc.typeError
    | some tp =>
      if tp ≤ 1 then .done records
      else .parallel records tp (List.range' 1 (tp - 1))

/-- Extraction of a fetched page's rows as stored by the collector
loop: only a successful future whose payload contains a `rowData` key
contributes (line 287); a failed future is logged and skipped
(lines 349-350). -/
def lookupResult {α : Type} (results : ℕ → Except PyExc (Option (List (List α))))
    (p : ℕ) : Option (List (List α)) :=
  match results p with
  | .ok (some rows) => some rows
  | _ => none

/-- Processing of one completed future (body of the
`as_completed` loop): on success with a `rowData` key, store the rows
under the page's own number; otherwise leave the buffer unchanged. -/
def storeResult {α : Type} (results : ℕ → Except PyExc (Option (List (List α))))
    (m : ℕ → Option (List (List α))) (p : ℕ) : ℕ → Option (List (List α)) :=
  match results p with
  | .ok (some rows) => fun q => if q = p then some rows else m q
  | _ => m

/-- The `processed_pages` buffer after the `as_completed` loop has
consumed the futures in completion order `order`. -/
def collectPages {α : Type} (results : ℕ → Except PyExc (Option (List (List α))))
    (order : List ℕ) (m : ℕ → Option (List (List α))) :
    ℕ → Option (List (List α)) :=
  order.foldl (storeResult results) m

/-- Initial `processed_pages = {0: first_page_rows}` (line 266). -/
def initPages {α : Type} (first_page_rows : List (List α)) :
    ℕ → Option (List (List α)) :=
  fun p => if p = 0 then some first_page_rows else none

/-- The ordered emission loop of lines 352-356: for
`page_num in range(1, total_pages)`, emit the buffered rows (if the
page is present) zipped with page 0's column list. -/
def emitBuffered {α : Type} (column_names : List String)
    (m : ℕ → Option (List (List α))) (total_pages : ℕ) :
    List (List (String × α)) :=
  (List.range' 1 (total_pages - 1)).flatMap
    (fun page_num =>
      match m page_num with
      | some rows => rows.map (fun row => column_names.zip row)
      | none => [])

/-- The full record sequence emitted by the generator's concurrent
phase: page 0's records first, then the buffered pages in ascending
page order.  `max_workers` is the thread-pool size; it influences only
which completion order `order` arises, never the emitted sequence, and
is universally quantified separately through `order`. -/
def concurrentEmission {α : Type} (column_names : List String)
    (first_page_rows : List (List α))
    (results : ℕ → Except PyExc (Option (List (List α))))
    (total_pages : ℕ) (max_workers : ℕ) (order : List ℕ) :
    List (List (String × α)) :=
  let _ := max_workers
  first_page_rows.map (fun row => column_names.zip row) ++
    emitBuffered column_names
      (collectPages results order (initPages first_page_rows)) total_pages

/-- Specification-side reference: fetch and emit all pages sequentially
in index order, skipping a permanently failed page as a gap. -/
def sequentialEmission {α : Type} (column_names : List String)
    (first_page_rows : List (List α))
    (results : ℕ → Except PyExc (Option (List (List α))))
    (total_pages : ℕ) : List (List (String × α)) :=
  first_page_rows.map (fun row => column_names.zip row) ++
    (List.range' 1 (total_pages - 1)).flatMap
      (fun page_num =>
        match lookupResult results page_num with
        | some rows => rows.map (fun row => column_names.zip row)
        | none => [])

/-- Modelled from the spec: `src/main.py`'s `eduskunta_table` has no
row-cap parameter (the repository's unit tests call it with
`row_limit`, but the implementation under src/ lacks it).  The spec
says a set row cap stops the yielding of records once the cap is
reached, so the cap truncates the emitted record stream. -/
def emitWithRowLimit {α : Type} (row_limit : ℕ)
    (records : List (List (String × α))) : List (List (String × α)) :=
  records.take row_limit

/-! Row-count verification in `main` (src/main.py lines 557-592) -/

/-- Verification outcome recorded in the table summary: the source
stores either the string "OK" or a warning string interpolating both
the API count and the DuckDB count; the `warning` constructor carries
exactly what that f-string interpolates. -/
inductive VerificationStatus where
  | ok
  | warning (api_rows : Int) (db_rows : Int)
deriving DecidableEq, Repr

/-- The comparison of lines 584-587:
`if api_row_count is not None and db_row_count != api_row_count`,
with `api_row_count = None` (authoritative count unavailable) falling
into the `else` branch. -/
def verification_status (api_row_count : Option Int) (db_row_count : Int) :
    VerificationStatus :=
  match api_row_count with
  | some api =>
    if db_row_count ≠ api then .warning api db_row_count else .ok
  | none => .ok

/-- The string the source actually stores in the summary. -/
def renderVerification : VerificationStatus → String
  | .ok => "OK"
  | .warning api db =>
    "WARNING: API reported " ++ toString api ++
      " rows, DuckDB contains " ++ toString db ++ " rows"

/-- Whether an exception value is the page-identifying `FetchError`
wrapper (which exists in the specification; the source never
constructs it). -/
def isFetchErrorExc : PyExc → Bool
  | .fetchError _ _ => true
  | _ => false

/-! Helper lemmas -/

/-- Pointwise effect of processing one completed future on the page
buffer. -/
lemma storeResult_apply {α : Type}
    (results : ℕ → Except PyExc (Option (List (List α))))
    (m : ℕ → Option (List (List α))) (p q : ℕ) :
    storeResult results m p q =
      if q = p then (lookupResult results p).elim (m q) some else m q := by
  rcases h : results p with e | o
  · simp [storeResult, lookupResult, h]
  · rcases o with _ | rows
    · simp [storeResult, lookupResult, h]
    · simp [storeResult, lookupResult, h]

/-- The buffer after the collector loop: a page that completed
successfully with a `rowData` key holds its rows, any other page keeps
its initial binding, independently of the completion order. -/
lemma collectPages_apply {α : Type}
    (results : ℕ → Except PyExc (Option (List (List α)))) :
    ∀ (order : List ℕ) (m : ℕ → Option (List (List α))) (q : ℕ),
      collectPages results order m q =
        if q ∈ order then (lookupResult results q).elim (m q) some else m q := by
  intro order
  induction order with
  | nil => intro m q; simp [collectPages]
  | cons p rest ih =>
    intro m q
    show collectPages results rest (storeResult results m p) q = _
    rw [ih]
    by_cases hmem : q ∈ rest
    · simp only [hmem, if_true, List.mem_cons, or_true, if_true]
      rcases hl : lookupResult results q with _ | rows
      · simp only [Option.elim, storeResult_apply]
        by_cases hqp : q = p
        · subst hqp; simp [hl]
        · simp [hqp]
      · simp
    · simp only [hmem, if_false, List.mem_cons, or_false]
      rw [storeResult_apply]
      by_cases hqp : q = p
      · subst hqp; simp
      · simp [hqp]

/-- The generator's buffered emission equals the sequential in-order
emission whenever the completion order is some permutation of the
submitted pages `1 .. total_pages - 1`. -/
lemma concurrentEmission_eq_sequential {α : Type} (column_names : List String)
    (first_page_rows : List (List α))
    (results : ℕ → Except PyExc (Option (List (List α))))
    (total_pages max_workers : ℕ) (order : List ℕ)
    (hperm : order.Perm (List.range' 1 (total_pages - 1))) :
    concurrentEmission column_names first_page_rows results total_pages
        max_workers order =
      sequentialEmission column_names first_page_rows results total_pages := by
  unfold concurrentEmission sequentialEmission emitBuffered
  congr 1
  apply List.flatMap_congr
  intro p hp
  have hp1 : 1 ≤ p := (List.mem_range'_1.mp hp).1
  have hmem : p ∈ order := hperm.mem_iff.mpr hp
  rw [collectPages_apply]
  rcases hl : lookupResult results p with _ | rows
  · simp [hmem, hl, initPages, Nat.pos_iff_ne_zero.mp hp1]
  · simp [hmem, hl]

/-- Claim C1: for every dataset split into pages `0 .. K`, fetched with
any thread-pool size and any completion order of the page fetches, the
record sequence emitted by the paginated table generator (page 0's
rows first, then the buffered rows of pages `1 .. total_pages - 1` in
ascending page-index order, each row zipped with the column list of
page 0) equals the sequence obtained by fetching and emitting all pages
sequentially in index order; a page that permanently failed is skipped
as a gap without disturbing the relative order of the remaining pages'
records. -/
theorem eduskunta_emission_refines_sequential {α : Type}
    (column_names : List String) (first_page_rows : List (List α))
    (results : ℕ → Except PyExc (Option (List (List α))))
    (total_pages max_workers : ℕ) (order : List ℕ)
    (hperm : order.Perm (List.range' 1 (total_pages - 1))) :
    concurrentEmission column_names first_page_rows results total_pages
        max_workers order =
      sequentialEmission column_names first_page_rows results total_pages :=
  concurrentEmission_eq_sequential column_names first_page_rows results
    total_pages max_workers order hperm

/-- Witness for claim C1: pages 0..3 of a four-page dataset with the
completion order 3, 1, 2 and a permanent failure on page 2. -/
theorem eduskunta_emission_refines_sequential_witness :
    ([3, 1, 2] : List ℕ).Perm (List.range' 1 (4 - 1)) ∧
    concurrentEmission ["a", "b"] [[1, 2]]
        (fun p =>
          if p = 1 then .ok (some [[3, 4]])
          else if p = 2 then .error (.transportError "x")
          else .ok (some [[5, 6], [7, 8]]))
        4 2 [3, 1, 2] =
      sequentialEmission ["a", "b"] [[1, 2]]
        (fun p =>
          if p = 1 then .ok (some [[3, 4]])
          else if p = 2 then .error (.transportError "x")
          else .ok (some [[5, 6], [7, 8]]))
        4 :=
  ⟨by decide,
    eduskunta_emission_refines_sequential ["a", "b"] [[1, 2]] _ 4 2 [3, 1, 2]
      (by decide)⟩

/-- Retry loop over the attempt indices `s, s+1, ..., retries-1` with a
transport that fails on every attempt: one request per attempt, one
backoff sleep after each attempt but the last, and the last error
re-raised. -/
lemma fetchAttempts_always_fail {α : Type} (errf : ℕ → PyExc)
    (page per_page retries : ℕ) :
    ∀ (n s : ℕ), 1 ≤ n → s + n = retries →
      fetchAttempts (fun a => (.error (errf a) : Except PyExc α))
          page per_page retries (List.range' s n) =
        ⟨List.replicate n ⟨page, per_page, 15⟩,
         (List.range' s (n - 1)).map retry_delay,
         .raised (errf (retries - 1))⟩ := by
  intro n
  induction n with
  | zero => intro s h1 _; omega
  | succ k ih =>
    intro s _ hs
    rw [List.range'_succ]
    simp only [fetchAttempts]
    rcases Nat.eq_zero_or_pos k with hk | hk
    · subst hk
      have hlast : s = retries - 1 := by omega
      rw [if_pos hlast, hlast]
      simp
    · have hne : s ≠ retries - 1 := by omega
      rw [if_neg hne, ih (s + 1) hk (by omega)]
      have hk1 : k - 1 + 1 = k := by omega
      refine FetchTrace.mk.injEq _ _ _ _ _ _ ▸ ?_
      constructor
      · simp [List.replicate_succ]
      constructor
      · show retry_delay s :: (List.range' (s + 1) (k - 1)).map retry_delay =
          (List.range' s (k + 1 - 1)).map retry_delay
        rw [Nat.add_sub_cancel, ← hk1, List.range'_succ, List.map_cons, hk1]
      · rfl

/-- Retry loop over the attempt indices `s, ..., retries-1` with a
transport that fails before the final attempt and succeeds on it: one
request per attempt, backoff sleeps in between, and the successful
`(page, data)` pair returned. -/
lemma fetchAttempts_eventual_success {α : Type}
    (transport : ℕ → Except PyExc α) (d : α) (page per_page retries : ℕ)
    (hfail : ∀ a, a < retries - 1 → ∃ e, transport a = .error e)
    (hok : transport (retries - 1) = .ok d) :
    ∀ (n s : ℕ), 1 ≤ n → s + n = retries →
      fetchAttempts transport page per_page retries (List.range' s n) =
        ⟨List.replicate n ⟨page, per_page, 15⟩,
         (List.range' s (n - 1)).map retry_delay,
         .returned page d⟩ := by
  intro n
  induction n with
  | zero => intro s h1 _; omega
  | succ k ih =>
    intro s _ hs
    rw [List.range'_succ]
    simp only [fetchAttempts]
    rcases Nat.eq_zero_or_pos k with hk | hk
    · subst hk
      have hlast : s = retries - 1 := by omega
      rw [hlast, hok]
      simp
    · obtain ⟨e, he⟩ := hfail s (by omega)
      have hne : s ≠ retries - 1 := by omega
      rw [he]
      simp only [if_neg hne, ih (s + 1) hk (by omega)]
      have hk1 : k - 1 + 1 = k := by omega
      refine FetchTrace.mk.injEq _ _ _ _ _ _ ▸ ?_
      constructor
      · simp [List.replicate_succ]
      constructor
      · show retry_delay s :: (List.range' (s + 1) (k - 1)).map retry_delay =
          (List.range' s (k + 1 - 1)).map retry_delay
        rw [Nat.add_sub_cancel, ← hk1, List.range'_succ, List.map_cons, hk1]
      · rfl

/-- Claim C2: for every page index, page size and retry count `K ≥ 1`,
`fetch_page_with_retry` with a transport that fails on every attempt
invokes the transport exactly `K` times, sleeping `0.5 * 2 ^ attempt`
seconds between consecutive attempts, and then fails; with a transport
that fails on the first `K - 1` attempts and succeeds on attempt `K`,
it returns the `(page_index, decoded payload)` pair of the successful
attempt; every attempt carries the per-attempt timeout of 15
seconds. -/
theorem fetch_retry_behaviour {α : Type} (page per_page K : ℕ)
    (hK : 1 ≤ K) :
    (∀ errf : ℕ → PyExc,
      fetch_page_with_retry (fun a => (.error (errf a) : Except PyExc α))
          page per_page K =
        ⟨List.replicate K ⟨page, per_page, 15⟩,
         (List.range (K - 1)).map retry_delay,
         .raised (errf (K - 1))⟩) ∧
    (∀ (transport : ℕ → Except PyExc α) (d : α),
      (∀ a, a < K - 1 → ∃ e, transport a = .error e) →
      transport (K - 1) = .ok d →
      fetch_page_with_retry transport page per_page K =
        ⟨List.replicate K ⟨page, per_page, 15⟩,
         (List.range (K - 1)).map retry_delay,
         .returned page d⟩) := by
  constructor
  · intro errf
    unfold fetch_page_with_retry
    rw [List.range_eq_range', fetchAttempts_always_fail errf page per_page K K 0 hK (by omega),
      List.range_eq_range']
  · intro transport d hfail hok
    unfold fetch_page_with_retry
    rw [List.range_eq_range',
      fetchAttempts_eventual_success transport d page per_page K hfail hok K 0 hK (by omega),
      List.range_eq_range']

/-- Witness for claim C2: with 3 retries, an always-failing transport
is called three times with backoff sleeps 0.5 and 1, and a transport
succeeding on the third attempt returns the page pair. -/
theorem fetch_retry_behaviour_witness :
    1 ≤ 3 ∧
    fetch_page_with_retry (fun _ => (.error (.transportError "x") : Except PyExc ℕ))
        4 100 3 =
      ⟨List.replicate 3 ⟨4, 100, 15⟩, (List.range 2).map retry_delay,
        .raised (.transportError "x")⟩ ∧
    fetch_page_with_retry
        (fun a => if a < 2 then (.error (.transportError "x") : Except PyExc ℕ)
                  else .ok 77) 4 100 3 =
      ⟨List.replicate 3 ⟨4, 100, 15⟩, (List.range 2).map retry_delay,
        .returned 4 77⟩ :=
  ⟨by decide,
    (fetch_retry_behaviour 4 100 3 (by decide)).1 (fun _ => .transportError "x"),
    (fetch_retry_behaviour 4 100 3 (by decide)).2
      (fun a => if a < 2 then .error (.transportError "x") else .ok 77) 77
      (fun a ha => ⟨.transportError "x", by simp [ha]⟩) rfl⟩

/-- One `acquire` step at the clock instant of the previous return
keeps the limiter invariants and costs at most one token per unit of
rate-weighted elapsed time. -/
lemma acquire_step_bound (R : ℚ) (hR : 0 < R) (s : RateLimiter) (c : ℚ)
    (hrl : s.rate_limit = R) (hlu : s.last_update = c)
    (_h0 : 0 ≤ s.tokens) (hcap : s.tokens ≤ R) :
    (s.acquire c).1.rate_limit = R ∧
    (s.acquire c).1.last_update = (s.acquire c).2 ∧
    0 ≤ (s.acquire c).1.tokens ∧ (s.acquire c).1.tokens ≤ R ∧
    (s.acquire c).1.tokens + 1 ≤ s.tokens + ((s.acquire c).2 - c) * R := by
  have hmin : s.refillTokens c = s.tokens := by
    unfold RateLimiter.refillTokens pymin
    rw [hlu, hrl]
    simp only [sub_self, zero_mul, add_zero]
    split_ifs with hle
    · exact le_antisymm hle hcap
    · rfl
  simp only [RateLimiter.acquire, hmin, hrl]
  split_ifs with h
  · have hdiv : (1 - s.tokens) / R * R = 1 - s.tokens :=
      div_mul_cancel₀ _ (ne_of_gt hR)
    refine ⟨rfl, rfl, le_rfl, le_of_lt hR, ?_⟩
    simp only
    nlinarith [hdiv]
  · refine ⟨rfl, rfl, by simp; linarith, by simp; linarith, ?_⟩
    simp only
    nlinarith

/-- After `n` back-to-back `acquire` calls the limiter still satisfies
its invariants and has consumed at most the initial tokens plus the
rate-weighted elapsed time. -/
lemma acquireN_bound (R : ℚ) (hR : 0 < R) :
    ∀ (n : ℕ) (s : RateLimiter) (c : ℚ),
      s.rate_limit = R → s.last_update = c → 0 ≤ s.tokens → s.tokens ≤ R →
      (s.acquireN c n).1.rate_limit = R ∧
      (s.acquireN c n).1.last_update = (s.acquireN c n).2 ∧
      0 ≤ (s.acquireN c n).1.tokens ∧ (s.acquireN c n).1.tokens ≤ R ∧
      (s.acquireN c n).1.tokens + n ≤ s.tokens + ((s.acquireN c n).2 - c) * R := by
  intro n
  induction n with
  | zero =>
    intro s c hrl hlu h0 hcap
    simp [RateLimiter.acquireN, hrl, hlu, h0, hcap]
  | succ k ih =>
    intro s c hrl hlu h0 hcap
    obtain ⟨s1rl, s1lu, s10, s1cap, s1cost⟩ := acquire_step_bound R hR s c hrl hlu h0 hcap
    simp only [RateLimiter.acquireN]
    obtain ⟨hrl2, hlu2, h02, hcap2, hcost2⟩ :=
      ih (s.acquire c).1 (s.acquire c).2 s1rl s1lu s10 s1cap
    refine ⟨hrl2, hlu2, h02, hcap2, ?_⟩
    push_cast
    nlinarith

/-- Claim C3 fails on the code: a fresh limiter starts with a full
bucket of `rate_limit` tokens, so with rate 2 two back-to-back
`acquire` calls both return immediately, elapsing 0 seconds instead of
the claimed lower bound of `(2 - 1) / 2` seconds. -/
theorem rateLimiter_initial_burst_counterexample :
    elapsedAfter 2 2 = 0 ∧ ¬ (((2 : ℚ) - 1) / 2 ≤ elapsedAfter 2 2) := by
  have h : elapsedAfter 2 2 = 0 := by
    show ((RateLimiter.init 2).acquireN 0 2).2 = 0
    norm_num [RateLimiter.acquireN, RateLimiter.acquire, RateLimiter.refillTokens,
      RateLimiter.init, pymin]
  refine ⟨h, ?_⟩
  rw [h]
  norm_num

/-- Claim C3 amended: for every rate limit `R > 0` and every sequence
of `N` back-to-back `acquire` calls on a fresh limiter, the total
elapsed time is at least `(N - R) / R` seconds — the token bucket
allows an initial burst of up to `R` acquisitions, and beyond that
burst no more than `R` acquisitions are sustained per second. -/
theorem rateLimiter_sustained_rate_bound (R : ℚ) (N : ℕ) (hR : 0 < R) :
    ((N : ℚ) - R) / R ≤ elapsedAfter R N := by
  obtain ⟨-, -, h0, -, hcost⟩ :=
    acquireN_bound R hR N (RateLimiter.init R) 0 rfl rfl (le_of_lt hR) le_rfl
  show ((N : ℚ) - R) / R ≤ ((RateLimiter.init R).acquireN 0 N).2
  rw [div_le_iff₀ hR]
  have hinit : (RateLimiter.init R).tokens = R := rfl
  rw [hinit] at hcost
  nlinarith

/-- Witness for the amended claim C3: with rate 1, three back-to-back
acquisitions take at least 2 seconds. -/
theorem rateLimiter_sustained_rate_bound_witness :
    (0 : ℚ) < 1 ∧ (((3 : ℕ) : ℚ) - 1) / 1 ≤ elapsedAfter 1 3 :=
  ⟨by norm_num, rateLimiter_sustained_rate_bound 1 3 (by norm_num)⟩

/-- Claim C4: after the generator computes the total page count, if
page 0's response has `hasMore = false` or the total page count is at
most 1, the generator terminates successfully immediately after
yielding page 0's records and never submits any concurrent fetch task,
for every concurrency setting; and the total page count is the ceiling
of `row_count / PER_PAGE` (so row count 250 with page size 100 gives 3
pages). -/
theorem eduskunta_single_page_short_circuit {α : Type}
    (rowCountsResp : Option (List (String × Int))) (table_name : String)
    (page0 : Page0Payload α) (max_concurrent_requests : ℕ)
    (h : page0.hasMore.getD false = false ∨
      ∃ tp, effectiveTotalPages rowCountsResp table_name page0 = some tp ∧ tp ≤ 1) :
    eduskunta_table_phase1 rowCountsResp table_name page0 max_concurrent_requests =
      .done ((page0.rowData.getD []).map
        (fun row => (page0.columnNames.getD []).zip row)) ∧
    (∀ row_count : Int, 0 < row_count →
      PER_PAGE * (totalPagesOfCount row_count - 1) < row_count.toNat ∧
      row_count.toNat ≤ PER_PAGE * totalPagesOfCount row_count) ∧
    totalPagesOfCount 250 = 3 := by
  refine ⟨?_, ?_, by decide⟩
  · unfold eduskunta_table_phase1
    rcases h with hm | ⟨tp, htp, h1⟩
    · simp [hm]
    · rcases hb : page0.hasMore.getD false with _ | _
      · simp
      · simp only [hb]
        rw [htp]
        simp [h1]
  · intro row_count hrc
    have hpos : 0 < row_count.toNat := by omega
    unfold totalPagesOfCount PER_PAGE
    omega

/-- Witness for claim C4: a single-page dataset (`hasMore = false`)
with authoritative count 250; the generator stops after page 0's two
records and submits no tasks. -/
theorem eduskunta_single_page_short_circuit_witness :
    (Page0Payload.mk (some ["a", "b"]) (some [[1, 2], [3, 4]]) (some 250)
        (some false)).hasMore.getD false = false ∧
    eduskunta_table_phase1 (some [("Votes", 250)]) "Votes"
        (Page0Payload.mk (some ["a", "b"]) (some [[1, 2], [3, 4]]) (some 250)
          (some false)) 5 =
      .done [[("a", 1), ("b", 2)], [("a", 3), ("b", 4)]] ∧
    totalPagesOfCount 250 = 3 := by
  have h := eduskunta_single_page_short_circuit (α := ℕ) (some [("Votes", 250)])
    "Votes"
    (Page0Payload.mk (some ["a", "b"]) (some [[1, 2], [3, 4]]) (some 250)
      (some false)) 5 (Or.inl rfl)
  exact ⟨rfl, by rw [h.1]; decide, h.2.2⟩

/-- Claim C10: if a dataset is absent from the bulk row-counts mapping
(or that request fails) and page 0's decoded payload lacks a positive
`rowCount` field while reporting `hasMore = true`, the generator raises
`TypeError` (comparing the `None` total page count with 1 in the
short-circuit test) after yielding page 0's records, aborting that
dataset; the branch is reached from the generator's public entry. -/
theorem eduskunta_missing_count_type_error {α : Type}
    (rowCountsResp : Option (List (String × Int))) (table_name : String)
    (page0 : Page0Payload α) (max_concurrent_requests : ℕ)
    (hcounts : rowCountsResp = none ∨
      ∃ l, rowCountsResp = some l ∧ lookupTable l table_name = none)
    (hrc : page0.rowCount = none ∨ ∃ rc, page0.rowCount = some rc ∧ rc ≤ 0)
    (hmore : page0.hasMore = some true) :
    eduskunta_table_phase1 rowCountsResp table_name page0 max_concurrent_requests =
      .raised ((page0.rowData.getD []).map
        (fun row => (page0.columnNames.getD []).zip row)) PyExc.typeError := by
  have hbulk : totalPagesFromRowCounts rowCountsResp table_name = none := by
    rcases hcounts with hnone | ⟨l, hl, hlk⟩
    · simp [totalPagesFromRowCounts, hnone]
    · simp [totalPagesFromRowCounts, hl, hlk]
  have htp : effectiveTotalPages rowCountsResp table_name page0 = none := by
    unfold effectiveTotalPages
    rw [hbulk]
    rcases hrc with hnone | ⟨rc, hsome, hle⟩
    · simp [hnone]
    · simp [hsome, not_lt.mpr hle]
  unfold eduskunta_table_phase1
  rw [htp]
  simp [hmore]

/-- Witness for claim C10: the bulk counts request failed, page 0
reports `hasMore = true` without any `rowCount` field, and the
generator raises `TypeError` after page 0's single record. -/
theorem eduskunta_missing_count_type_error_witness :
    ((none : Option (List (String × Int))) = none ∨
      ∃ l, (none : Option (List (String × Int))) = some l ∧
        lookupTable l "Votes" = none) ∧
    eduskunta_table_phase1 (α := ℕ) none "Votes"
        (Page0Payload.mk (some ["a", "b"]) (some [[1, 2]]) none (some true)) 5 =
      .raised [[("a", 1), ("b", 2)]] PyExc.typeError := by
  have h := eduskunta_missing_count_type_error (α := ℕ) none "Votes"
    (Page0Payload.mk (some ["a", "b"]) (some [[1, 2]]) none (some true)) 5
    (Or.inl rfl) (Or.inl rfl) rfl
  exact ⟨Or.inl rfl, by rw [h]; decide⟩

/-- Claim C5 fails on the code: with the authoritative API count
unavailable (`None`), the source records the very same `OK` status as a
successful verification — there is no distinct `UNKNOWN` outcome. -/
theorem verification_unknown_counterexample :
    verification_status none 100 = .ok ∧
    renderVerification (verification_status none 100) = "OK" ∧
    verification_status none 100 = verification_status (some 100) 100 := by
  decide

/-- Claim C5 amended: after a completed table load, equal API and store
counts give status `OK`; differing counts give a mismatch status
carrying both the expected (API) and actual (store) counts; an
unavailable authoritative count also gives `OK` — the code does not
distinguish an `UNKNOWN` state. -/
theorem verification_status_spec (api_row_count : Option Int)
    (db_row_count : Int) :
    (api_row_count = some db_row_count →
      verification_status api_row_count db_row_count = .ok) ∧
    (∀ api, api_row_count = some api → db_row_count ≠ api →
      verification_status api_row_count db_row_count = .warning api db_row_count) ∧
    (api_row_count = none →
      verification_status api_row_count db_row_count = .ok) := by
  refine ⟨?_, ?_, ?_⟩
  · intro h
    simp [verification_status, h]
  · intro api h hne
    simp [verification_status, h, hne]
  · intro h
    simp [verification_status, h]

/-- Witness for the amended claim C5: counts 100/100 verify `OK`,
100/97 record the mismatch with both counts, and an unavailable API
count records `OK`. -/
theorem verification_status_spec_witness :
    verification_status (some 100) 100 = .ok ∧
    verification_status (some 100) 97 = .warning 100 97 ∧
    verification_status none 42 = .ok :=
  ⟨(verification_status_spec (some 100) 100).1 rfl,
    (verification_status_spec (some 100) 97).2.1 100 rfl (by decide),
    (verification_status_spec none 42).2.2 rfl⟩

/-- Claim C6 (row cap modelled from the spec, see `emitWithRowLimit`):
running the pagination coordinator with a row cap `C` on a dataset
having more than `C` rows yields exactly `C` records, and those records
are the first `C` of the in-order sequential emission — ascending page
order, wherever inside a page the cap falls, with nothing yielded past
the cap. -/
theorem row_limit_truncates_ordered_stream {α : Type}
    (column_names : List String) (first_page_rows : List (List α))
    (results : ℕ → Except PyExc (Option (List (List α))))
    (total_pages max_workers C : ℕ) (order : List ℕ)
    (hperm : order.Perm (List.range' 1 (total_pages - 1)))
    (hC : C < (sequentialEmission column_names first_page_rows results
      total_pages).length) :
    (emitWithRowLimit C (concurrentEmission column_names first_page_rows
        results total_pages max_workers order)).length = C ∧
    emitWithRowLimit C (concurrentEmission column_names first_page_rows
        results total_pages max_workers order) =
      (sequentialEmission column_names first_page_rows results
        total_pages).take C := by
  unfold emitWithRowLimit
  rw [concurrentEmission_eq_sequential column_names first_page_rows results
    total_pages max_workers order hperm]
  exact ⟨by rw [List.length_take]; omega, rfl⟩

/-- Witness for claim C6: a three-page, five-record dataset capped at
2 records yields exactly the first two records of the in-order
stream. -/
theorem row_limit_truncates_ordered_stream_witness :
    ([2, 1] : List ℕ).Perm (List.range' 1 (3 - 1)) ∧
    (2 : ℕ) < (sequentialEmission ["a"] [[1], [2]]
      (fun p => if p = 1 then .ok (some [[3], [4]]) else .ok (some [[5]]))
      3).length ∧
    (emitWithRowLimit 2 (concurrentEmission ["a"] [[1], [2]]
        (fun p => if p = 1 then .ok (some [[3], [4]]) else .ok (some [[5]]))
        3 2 [2, 1])).length = 2 ∧
    emitWithRowLimit 2 (concurrentEmission ["a"] [[1], [2]]
        (fun p => if p = 1 then .ok (some [[3], [4]]) else .ok (some [[5]]))
        3 2 [2, 1]) =
      (sequentialEmission ["a"] [[1], [2]]
        (fun p => if p = 1 then .ok (some [[3], [4]]) else .ok (some [[5]]))
        3).take 2 := by
  have h := row_limit_truncates_ordered_stream ["a"] [[1], [2]]
    (fun p => if p = 1 then .ok (some [[3], [4]]) else .ok (some [[5]]))
    3 2 2 [2, 1] (by decide) (by decide)
  exact ⟨by decide, by decide, h.1, h.2⟩

/-- Claim C7 is what the specification requires, and the code does the
opposite: the constructor accepts `rate_limit = 0` and `-1` without
any validation, and the very first `acquire` then fails with an
arithmetic error unrelated to configuration — `ZeroDivisionError` from
`(1.0 - tokens) / rate_limit` for rate 0, and `ValueError` from
`time.sleep` of the negative sleep duration for a negative rate. -/
theorem rate_limit_nonpositive_first_acquire :
    (RateLimiter.init 0).acquireChecked 0 = .error .zeroDivisionError ∧
    (RateLimiter.init (-1)).acquireChecked 0 = .error .valueError := by
  constructor
  · show RateLimiter.acquireChecked ⟨0, 0, 0⟩ 0 = _
    norm_num [RateLimiter.acquireChecked, RateLimiter.refillTokens, pymin]
  · show RateLimiter.acquireChecked ⟨-1, -1, 0⟩ 0 = _
    norm_num [RateLimiter.acquireChecked, RateLimiter.refillTokens, pymin]

/-- Claim C8 fails on the code: on exhausting all retries the bare
`raise` at the last attempt re-raises the raw transport exception; the
result carries no page-identifying `FetchError` wrapper. -/
theorem fetch_retry_no_fetch_error_counterexample :
    (fetch_page_with_retry alwaysBoom 7 100 3).outcome =
      .raised (.transportError "boom") ∧
    carriesFetchError (fetch_page_with_retry alwaysBoom 7 100 3) = false := by
  decide

/-- Claim C8 amended: on exhausting all retries,
`fetch_page_with_retry` re-raises the last underlying transport
exception unchanged — the raised value is exactly the final attempt's
error, with no `FetchError` wrapper adding the page index. -/
theorem fetch_retry_raises_raw_error {α : Type} (page per_page K : ℕ)
    (hK : 1 ≤ K) (errf : ℕ → PyExc)
    (hplain : ∀ a, isFetchErrorExc (errf a) = false) :
    (fetch_page_with_retry (fun a => (.error (errf a) : Except PyExc α))
        page per_page K).outcome = .raised (errf (K - 1)) ∧
    carriesFetchError (fetch_page_with_retry
        (fun a => (.error (errf a) : Except PyExc α)) page per_page K) = false := by
  have h : fetch_page_with_retry (fun a => (.error (errf a) : Except PyExc α))
      page per_page K =
      ⟨List.replicate K ⟨page, per_page, 15⟩,
        (List.range' 0 (K - 1)).map retry_delay,
        .raised (errf (K - 1))⟩ := by
    unfold fetch_page_with_retry
    rw [List.range_eq_range',
      fetchAttempts_always_fail errf page per_page K K 0 hK (by omega)]
  rw [h]
  refine ⟨rfl, ?_⟩
  have hp := hplain (K - 1)
  unfold carriesFetchError
  cases he : errf (K - 1) <;> simp_all [isFetchErrorExc]

/-- Witness for the amended claim C8: two retries of an always-failing
transport end with the bare transport error and no wrapper. -/
theorem fetch_retry_raises_raw_error_witness :
    1 ≤ 2 ∧
    (fetch_page_with_retry (fun _ => (.error (.transportError "down") :
        Except PyExc ℕ)) 9 100 2).outcome = .raised (.transportError "down") ∧
    carriesFetchError (fetch_page_with_retry
        (fun _ => (.error (.transportError "down") : Except PyExc ℕ))
        9 100 2) = false :=
  ⟨by decide,
    (fetch_retry_raises_raw_error 9 100 2 (by decide)
      (fun _ => .transportError "down") (fun _ => rfl)).1,
    (fetch_retry_raises_raw_error 9 100 2 (by decide)
      (fun _ => .transportError "down") (fun _ => rfl)).2⟩

/-- Claim C9 fails on the code: the whole body of `acquire`, including
the `time.sleep`, runs inside the `with self.lock:` block.  Concretely,
of two back-to-back acquires on a fresh rate-1 limiter the second one
must wait, and its event trace sleeps while the lock is held. -/
theorem acquire_sleeps_inside_lock_counterexample :
    sleepsHoldingLock
      ((((RateLimiter.init 1).acquireTrace 0).2.1.acquireTrace
        (((RateLimiter.init 1).acquireTrace 0).2.2)).1) 0 = true := by
  norm_num [RateLimiter.acquireTrace, RateLimiter.init, RateLimiter.refillTokens,
    pymin, sleepsHoldingLock]

/-- Claim C9 amended: whenever the token shortfall forces a wait,
`acquire` sleeps while still holding the shared mutual-exclusion lock —
the trace is lock-acquire, sleep, lock-release — so one waiting worker
does serialize other concurrent acquirers behind its full sleep; only
the no-wait path holds the lock without sleeping. -/
theorem acquire_lock_trace (s : RateLimiter) (now : ℚ)
    (hwait : s.refillTokens now < 1) :
    (s.acquireTrace now).1 =
      [.lockAcquire, .sleepFor ((1 - s.refillTokens now) / s.rate_limit),
        .lockRelease] ∧
    sleepsHoldingLock (s.acquireTrace now).1 0 = true := by
  refine ⟨?_, ?_⟩ <;>
    simp [RateLimiter.acquireTrace, hwait, sleepsHoldingLock]

/-- Witness for the amended claim C9: a rate-1 limiter with an empty
bucket sleeps one second inside the lock. -/
theorem acquire_lock_trace_witness :
    (RateLimiter.mk 1 0 0).refillTokens 0 < 1 ∧
    ((RateLimiter.mk 1 0 0).acquireTrace 0).1 =
      [.lockAcquire,
        .sleepFor ((1 - (RateLimiter.mk 1 0 0).refillTokens 0) /
          (RateLimiter.mk 1 0 0).rate_limit),
        .lockRelease] ∧
    sleepsHoldingLock ((RateLimiter.mk 1 0 0).acquireTrace 0).1 0 = true :=
  ⟨by norm_num [RateLimiter.refillTokens, pymin],
    (acquire_lock_trace (RateLimiter.mk 1 0 0) 0
      (by norm_num [RateLimiter.refillTokens, pymin])).1,
    (acquire_lock_trace (RateLimiter.mk 1 0 0) 0
      (by norm_num [RateLimiter.refillTokens, pymin])).2⟩
